import Mathlib

/-!
Verification development for the JAH Agency repository, covering the
Transactional Ledger Core (financial_infrastructure.py) and the Task
Distribution Core (task_distribution_engine.py).

The Python source is shallowly embedded: Decimal amounts become integer
counts of cents (the source's amounts are fixed-point decimals of scale 2,
so this is lossless: 10.00 is 1000), datetimes become an integer count of minutes (from which the calendar day,
the hour of day and the weekday are derived), the SQLite tables become lists
of rows, and each method becomes a pure function from the old state to the
result together with the new state.  Fields of the source records that no
claim touches (processed_date, subcategory, metadata, correlation ids,
currency) are omitted from the row types.
-/

/-! ## Data model (financial_infrastructure.py) -/

/-- AccountType enum of the source. -/
inductive AccountType
  | primary_revenue
  | operational_expense
  | reserve
  | investment
deriving DecidableEq

/-- TransactionType enum of the source. -/
inductive TransactionType
  | credit
  | debit
deriving DecidableEq

/-- ValidationStatus enum of the source. -/
inductive ValidationStatus
  | pending
  | validated
  | rejected
  | requires_review
deriving DecidableEq

/-- Timestamps, as whole minutes counted from an epoch whose day 0 is a
Monday.  The source compares datetimes chronologically (ISO strings compare
chronologically), groups them by calendar date, and reads the hour and the
weekday; the three derived functions below provide exactly those views. -/
structure DTime where
  minutes : ℤ
deriving DecidableEq

/-- Calendar day ordinal of a timestamp (the date part used by the
daily-total query). -/
def DTime.dateOf (t : DTime) : ℤ := t.minutes.ediv 1440

/-- Hour of day, 0..23 (datetime.hour). -/
def DTime.hour (t : DTime) : ℤ := (t.minutes.emod 1440).ediv 60

/-- Weekday, 0 = Monday .. 6 = Sunday (datetime.weekday), from the day
ordinal with day 0 a Monday. -/
def DTime.weekday (t : DTime) : ℤ := (t.dateOf).emod 7

/-- A row of the accounts table (fields the processor reads and writes). -/
structure AccountRow where
  account_id : String
  account_type : AccountType
  current_balance : ℤ
deriving DecidableEq

/-- A financial transaction (the fields of FinancialTransaction the
processor's logic reads, plus validation_status which it mutates). -/
structure Txn where
  transaction_id : String
  account_id : String
  transaction_type : TransactionType
  amount : ℤ
  category : String
  description : String
  reference_number : Option String
  transaction_date : DTime
  validation_status : ValidationStatus
deriving DecidableEq

/-- The persistent state: the accounts table and the
financial_transactions table. -/
structure DBState where
  accounts : List AccountRow
  transactions : List Txn
deriving DecidableEq

/-! ## TransactionProcessor queries -/

/-- TransactionProcessor._get_account_balance: first row with the account
id, defaulting to 0 when absent. -/
def get_account_balance (db : DBState) (id : String) : ℤ :=
  match db.accounts.find? (fun a => a.account_id == id) with
  | some a => a.current_balance
  | none => 0

/-- TransactionProcessor._check_account_exists. -/
def check_account_exists (db : DBState) (id : String) : Bool :=
  (db.accounts.find? (fun a => a.account_id == id)).isSome

/-- TransactionProcessor._check_sufficient_balance (the boolean field). -/
def check_sufficient_balance (db : DBState) (id : String) (amount : ℤ) : Bool :=
  amount ≤ get_account_balance db id

/-- TransactionProcessor._allow_negative_balance: only
operational-expense accounts may go negative. -/
def allow_negative_balance (db : DBState) (id : String) : Bool :=
  match db.accounts.find? (fun a => a.account_id == id) with
  | some a => a.account_type == AccountType.operational_expense
  | none => false

/-- Validation errors produced by
TransactionProcessor._validate_transaction, one constructor per
f-string error message of the source. -/
inductive VError
  | missing_field (name : String)
  | amount_below_minimum
  | amount_above_maximum
  | account_not_found
  | insufficient_balance
deriving DecidableEq

/-- TransactionProcessor._validate_transaction, as the list of errors in
the order the source appends them.  The required-fields loop checks
description, category and amount for Python truthiness: the category is an
enum and always truthy, an empty description and a zero amount are falsy.
The rule thresholds are the source's validation_rules
(min 0.01, max 100000.00, that is 1 to 10000000 cents). -/
def validate_transaction (db : DBState) (t : Txn) : List VError :=
  (if t.description = "" then [VError.missing_field "description"] else []) ++
  (if t.amount = 0 then [VError.missing_field "amount"] else []) ++
  (if t.amount < 1 then [VError.amount_below_minimum] else []) ++
  (if 10000000 < t.amount then [VError.amount_above_maximum] else []) ++
  (if check_account_exists db t.account_id = false then [VError.account_not_found] else []) ++
  (if t.transaction_type = TransactionType.debit ∧
      check_sufficient_balance db t.account_id t.amount = false
   then [VError.insufficient_balance] else [])

/-! ## Fraud detection -/

/-- TransactionProcessor._get_daily_transaction_total: sum of amounts of
stored transactions on the account, on the given calendar day, with
validation status validated. -/
def get_daily_transaction_total (db : DBState) (id : String) (day : ℤ) : ℤ :=
  ((db.transactions.filter (fun r =>
      r.account_id == id && r.transaction_date.dateOf == day &&
      r.validation_status == ValidationStatus.validated)).map (fun r => r.amount)).sum

/-- TransactionProcessor._detect_rapid_succession: more than 3 stored
transactions on the account dated within the closed window of the last 5
minutes.  The source's query has no validation-status filter. -/
def detect_rapid_succession (db : DBState) (t : Txn) : Bool :=
  3 < (db.transactions.filter (fun r =>
        r.account_id == t.account_id &&
        t.transaction_date.minutes - 5 ≤ r.transaction_date.minutes &&
        r.transaction_date.minutes ≤ t.transaction_date.minutes)).length

/-- TransactionProcessor._is_round_amount: the amount is an exact
multiple of 100 currency units (Decimal amount % 100 == 0, that is 10000
cents) and is at least 1000 units. -/
def is_round_amount (a : ℤ) : Bool :=
  a.emod 10000 == 0 && 100000 ≤ a

/-- TransactionProcessor._is_unusual_time: weekend, or outside 6:00-22:59. -/
def is_unusual_time (t : DTime) : Bool :=
  5 ≤ t.weekday || t.hour < 6 || 22 < t.hour

/-- TransactionProcessor._perform_fraud_detection risk score: the five
rule contributions added in the source's order.  The caps are the source's
fraud_detection_rules (single 10000.00, daily 25000.00, in cents below). -/
def perform_fraud_detection (db : DBState) (t : Txn) : ℤ :=
  (if 1000000 < t.amount then 30 else 0) +
  (if 2500000 < get_daily_transaction_total db t.account_id t.transaction_date.dateOf + t.amount
   then 25 else 0) +
  (if detect_rapid_succession db t then 20 else 0) +
  (if is_round_amount t.amount then 5 else 0) +
  (if is_unusual_time t.transaction_date then 10 else 0)

/-- Risk levels of the fraud screen. -/
inductive RiskLevel
  | low
  | medium
  | high
deriving DecidableEq

/-- Risk level thresholds of _perform_fraud_detection. -/
def risk_level_of (score : ℤ) : RiskLevel :=
  if 50 ≤ score then RiskLevel.high
  else if 25 ≤ score then RiskLevel.medium
  else RiskLevel.low

/-! ## Posting -/

/-- TransactionProcessor._execute_transaction: the prospective new balance,
or none when it would be negative on an account that does not allow it. -/
def execute_transaction (db : DBState) (t : Txn) : Option ℤ :=
  let current := get_account_balance db t.account_id
  let nb := if t.transaction_type = TransactionType.credit
            then current + t.amount else current - t.amount
  if nb < 0 ∧ allow_negative_balance db t.account_id = false then none else some nb

/-- The UPDATE accounts SET current_balance row rewrite: every row with the
account id gets the new balance. -/
def set_balance (accounts : List AccountRow) (id : String) (nb : ℤ) : List AccountRow :=
  accounts.map (fun a => if a.account_id = id then { a with current_balance := nb } else a)

/-- TransactionProcessor._update_account_balance: reread the balance,
recompute, and write it back. -/
def update_account_balance_txn (db : DBState) (t : Txn) : DBState :=
  let current := get_account_balance db t.account_id
  let nb := if t.transaction_type = TransactionType.credit
            then current + t.amount else current - t.amount
  { db with accounts := set_balance db.accounts t.account_id nb }

/-- TransactionProcessor._store_transaction: INSERT appends a row. -/
def store_transaction (db : DBState) (t : Txn) : DBState :=
  { db with transactions := db.transactions ++ [t] }

/-- Result dictionary of TransactionProcessor.process_transaction, one
constructor per return site. -/
inductive ProcessResult
  | validationFailed (errors : List VError)
  | fraudReview (score : ℤ)
  | executed (new_balance : ℚ)
  | executionFailed
deriving DecidableEq

/-- The success flag of a process_transaction result. -/
def ProcessResult.success : ProcessResult → Bool
  | ProcessResult.executed _ => true
  | _ => false

/-- TransactionProcessor.process_transaction: validate, screen, post.
Returns the result, the transaction object with its final mutated
validation status, and the new persistent state.  A high-risk transaction
is returned as requires-review without being stored; a validated or
rejected transaction is stored. -/
def process_transaction (db : DBState) (t : Txn) : ProcessResult × Txn × DBState :=
  let errs := validate_transaction db t
  if errs ≠ [] then (ProcessResult.validationFailed errs, t, db)
  else
    let score := perform_fraud_detection db t
    if risk_level_of score = RiskLevel.high then
      (ProcessResult.fraudReview score,
       { t with validation_status := ValidationStatus.requires_review }, db)
    else
      match execute_transaction db t with
      | some nb =>
          let db1 := update_account_balance_txn db t
          let tv := { t with validation_status := ValidationStatus.validated }
          (ProcessResult.executed nb, tv, store_transaction db1 tv)
      | none =>
          let tr := { t with validation_status := ValidationStatus.rejected }
          (ProcessResult.executionFailed, tr, store_transaction db tr)

/-! ## Transfers (FinancialInfrastructureSystem.transfer_between_accounts) -/

/-- The dataclass-generated constructor of FinancialTransaction.  Every
field through processed_date carries no dataclass default (the Optional
annotations are only types), so each is a required argument.
reference_number and processed_date are the two that the transfer call
sites may omit; they are modelled as Option-wrapped arguments where none
marks an omitted argument, and a call that omits either raises TypeError
(an error result here).  The processed date itself is not a field of the
embedded row type, so only whether that argument was supplied matters. -/
def financial_transaction_init (transaction_id account_id : String)
    (transaction_type : TransactionType) (amount : ℤ)
    (category description : String)
    (reference_number_arg : Option (Option String))
    (transaction_date : DTime)
    (processed_date_arg : Option (Option DTime)) : Except String Txn :=
  match reference_number_arg, processed_date_arg with
  | some reference_number, some _ =>
      Except.ok { transaction_id := transaction_id, account_id := account_id,
                  transaction_type := transaction_type, amount := amount,
                  category := category, description := description,
                  reference_number := reference_number,
                  transaction_date := transaction_date,
                  validation_status := ValidationStatus.pending }
  | _, _ =>
      Except.error "TypeError: missing required positional arguments"

/-- FinancialInfrastructureSystem.transfer_between_accounts.  The debit
leg's constructor call (source line 1212) supplies neither
reference_number nor processed_date, and the credit leg's call (line
1229) supplies reference_number but not processed_date; a raised
TypeError is caught by the function's blanket except (line 1258), which
returns a failure with the persistent state as it stands at that point.
The fresh uuids and the two datetime.now() readings become parameters. -/
def transfer_between_accounts (db : DBState) (from_id to_id : String) (amount : ℤ)
    (desc : String) (debit_id credit_id : String) (d1 d2 : DTime) : Bool × DBState :=
  match financial_transaction_init debit_id from_id TransactionType.debit amount
      "transfer" ("Transfer to " ++ to_id ++ ": " ++ desc) none d1 none with
  | Except.error _ => (false, db)
  | Except.ok dt =>
    let r1 := process_transaction db dt
    if r1.1.success = false then (false, r1.2.2)
    else
      match financial_transaction_init credit_id to_id TransactionType.credit amount
          "transfer" ("Transfer from " ++ from_id ++ ": " ++ desc)
          (some (some debit_id)) d2 none with
      | Except.error _ => (false, r1.2.2)
      | Except.ok ct =>
        let r2 := process_transaction r1.2.2 ct
        (r2.1.success, r2.2.2)

/-! ## Posted sequences (claim C4) -/

/-- Processing a list of transactions one after another, keeping the final
state. -/
def process_all (db : DBState) (ts : List Txn) : DBState :=
  ts.foldl (fun d t => (process_transaction d t).2.2) db

/-- Every transaction of the list posts successfully when processed in
sequence from the given state. -/
def all_posted_b : DBState → List Txn → Bool
  | _, [] => true
  | db, t :: ts =>
      (process_transaction db t).1.success && all_posted_b (process_transaction db t).2.2 ts

/-- Sum of the amounts of the credit transactions of a list. -/
def credit_total (ts : List Txn) : ℤ :=
  ((ts.filter (fun t => t.transaction_type == TransactionType.credit)).map
    (fun t => t.amount)).sum

/-- Sum of the amounts of the debit transactions of a list. -/
def debit_total (ts : List Txn) : ℤ :=
  ((ts.filter (fun t => t.transaction_type == TransactionType.debit)).map
    (fun t => t.amount)).sum

/-! ## AccountManager (claim C9) -/

/-- Lookup in the accounts cache dictionary, modelled as an association
list from account id to cached current balance. -/
def cache_lookup : List (String × ℤ) → String → Option ℤ
  | [], _ => none
  | (k, v) :: rest, id => if k = id then some v else cache_lookup rest id

/-- Mutation of the cached account's current_balance field. -/
def cache_set_balance : List (String × ℤ) → String → ℤ → List (String × ℤ)
  | [], _, _ => []
  | (k, v) :: rest, id, nb =>
      if k = id then (k, nb) :: rest else (k, v) :: cache_set_balance rest id nb

/-- AccountManager.update_account_balance: run the store UPDATE (its
success is the external store_ok outcome of
DatabaseManager.execute_update), and only on success update the in-memory
cache, and only when the account id is present in the cache. -/
def update_account_balance_cached (store_ok : Bool) (cache : List (String × ℤ))
    (account_id : String) (new_balance : ℤ) : Bool × List (String × ℤ) :=
  if store_ok then
    (true,
     if (cache_lookup cache account_id).isSome
     then cache_set_balance cache account_id new_balance
     else cache)
  else (false, cache)

/-! ## TaskPriorityEngine (task_distribution_engine.py) -/

/-- The deadline branch of TaskPriorityEngine._calculate_urgency_score:
base urgency from the urgency_thresholds table (critical 2h, high 24h,
medium 168h). -/
def urgency_base (time_to_deadline : ℚ) : ℚ :=
  if time_to_deadline ≤ 2 then 95
  else if time_to_deadline ≤ 24 then 80
  else if time_to_deadline ≤ 168 then 50
  else 20

/-- Aging factor of _calculate_urgency_score: 10 percent per waiting day,
capped at 1.5. -/
def urgency_aging (time_since_creation : ℚ) : ℚ :=
  min (3/2) (1 + time_since_creation / 24 * (1/10))

/-- Deadline-pressure multiplier of _calculate_urgency_score: 1.3 when
less than 1.5 times the estimated hours remain. -/
def urgency_mult (time_to_deadline estimated_hours : ℚ) : ℚ :=
  if time_to_deadline < estimated_hours * (3/2) then 13/10 else 1

/-- TaskPriorityEngine._calculate_urgency_score for a task with a
deadline, as a function of the hours to the deadline, the hours since
creation, and the resolved estimated hours (the source substitutes 2.0
when the task declares none).  A task without a deadline returns 30
before this computation is reached. -/
def calculate_urgency_score (time_to_deadline time_since_creation estimated_hours : ℚ) : ℚ :=
  min 100 (urgency_base time_to_deadline * urgency_aging time_since_creation *
    urgency_mult time_to_deadline estimated_hours)

/-- The revenue_impact_multipliers table of TaskPriorityEngine, with the
source's dict-get default of 1.0 for any other or missing revenue type. -/
def revenue_type_multiplier (revenue_type : String) : ℚ :=
  if revenue_type = "direct_revenue" then 2
  else if revenue_type = "pipeline_impact" then 3/2
  else if revenue_type = "retention_impact" then 13/10
  else if revenue_type = "cost_savings" then 1
  else 1

/-- TaskPriorityEngine._calculate_revenue_impact_score.  The logarithm
base 10 used by the source (math.log10) is passed as a parameter so the
definition stays executable; every theorem below either holds for all
log10 functions or samples it at a point whose decimal logarithm is
exact. -/
def calculate_revenue_impact_score (log10 : ℚ → ℚ)
    (revenue_potential : ℚ) (revenue_type : String) : ℚ :=
  min 100
    ((if 0 < revenue_potential
      then min 90 (max 30 (30 + 20 * log10 (max 1 (revenue_potential / 100))))
      else 20)
     * revenue_type_multiplier revenue_type)

/-- PriorityScore record of the source (calculation timestamp and
recalculation triggers omitted, no claim touches them). -/
structure TaskPriorityScore where
  composite_score : ℚ
  urgency_score : ℚ
  business_impact_score : ℚ
  resource_efficiency_score : ℚ
  revenue_impact_score : ℚ
  dependency_score : ℚ
deriving DecidableEq

/-- The default medium-priority score returned by the except branch of
calculate_comprehensive_priority. -/
def default_priority_score : TaskPriorityScore :=
  { composite_score := 50, urgency_score := 50, business_impact_score := 50,
    resource_efficiency_score := 50, revenue_impact_score := 50, dependency_score := 50 }

/-- TaskPriorityEngine.calculate_comprehensive_priority.  The five
sub-score computations run inside one try block and any of them may raise
(the requirements bag is untyped), so each is embedded as an Except value;
the first error short-circuits into the except branch, which returns the
all-fifty default instead of propagating.  On the non-raising path the
composite is the weighted sum clamped to the 0-100 scale with the source's
priority_weights. -/
def calculate_comprehensive_priority
    (urgency business efficiency revenue dependency : Except String ℚ) : TaskPriorityScore :=
  match urgency, business, efficiency, revenue, dependency with
  | Except.ok u, Except.ok b, Except.ok r, Except.ok v, Except.ok d =>
      { composite_score :=
          min 100 (max 0 (u * (1/4) + b * (3/10) + r * (1/5) + v * (3/20) + d * (1/10))),
        urgency_score := u, business_impact_score := b,
        resource_efficiency_score := r, revenue_impact_score := v,
        dependency_score := d }
  | _, _, _, _, _ => default_priority_score

/-! ## IntelligentTaskQueue (claim C5) -/

/-- A heap entry of IntelligentTaskQueue: the tuple
(negated composite score, creation timestamp, task id, task), with the
task represented by the required-capabilities list its compatibility
check reads.  The periodic rebalance recomputes the stored priorities
before a scan; the queue modelled here is the state the scan reads. -/
structure QEntry where
  neg_priority : ℚ
  timestamp : ℚ
  task_id : String
  required_capabilities : List String
deriving DecidableEq

/-- The composite priority a queue entry was enqueued with. -/
def QEntry.composite (e : QEntry) : ℚ := -e.neg_priority

/-- IntelligentTaskQueue._is_task_compatible: with no required
capabilities every worker is compatible; otherwise the worker's tags must
cover at least 70 percent of the distinct required tags.  The source
compares len(overlap)/len(required) against the float 0.7; for integer
cardinalities that comparison coincides with the exact rational one, so it
is embedded as 7 * required ≤ 10 * overlap. -/
def is_task_compatible (required : List String) (agent_capabilities : List String) : Bool :=
  if required = [] then true
  else
    7 * required.dedup.length ≤
      10 * (required.dedup.filter (fun c => agent_capabilities.contains c)).length

/-- Python's tuple comparison on heap entries: lexicographic on
(negated priority, timestamp, task id); the fourth tuple component is
never reached because task ids are unique. -/
def entry_lt (a b : QEntry) : Prop :=
  a.neg_priority < b.neg_priority ∨
  (a.neg_priority = b.neg_priority ∧
    (a.timestamp < b.timestamp ∨ (a.timestamp = b.timestamp ∧ a.task_id < b.task_id)))

instance (a b : QEntry) : Decidable (entry_lt a b) := by
  unfold entry_lt
  infer_instance

/-- The part of the tuple order on queue entries that claim C5 speaks
about: no worse composite priority, and no later timestamp on a composite
tie. -/
def pref_le (a b : QEntry) : Prop :=
  a.neg_priority ≤ b.neg_priority ∧
  (a.neg_priority = b.neg_priority → a.timestamp ≤ b.timestamp)

/-- The head of the sorted compatible list: the leftmost minimal entry
under the tuple order (compatible_tasks.sort(); compatible_tasks[0]). -/
def pick_min : List QEntry → Option QEntry
  | [] => none
  | e :: es => some (es.foldl (fun best x => if entry_lt x best then x else best) e)

/-- IntelligentTaskQueue.dequeue_optimal_task over the queue contents:
pop everything, keep the compatible entries aside, push the incompatible
ones back, take the best compatible entry, and push the remaining
compatible ones back.  The heap is represented by the list of its
entries. -/
def dequeue_optimal_task (queue : List QEntry) (agent_capabilities : List String) :
    Option QEntry × List QEntry :=
  let compat := queue.filter (fun e => is_task_compatible e.required_capabilities agent_capabilities)
  let incompat := queue.filter (fun e => !is_task_compatible e.required_capabilities agent_capabilities)
  match pick_min compat with
  | none => (none, incompat)
  | some e => (some e, incompat ++ compat.erase e)

/-! ## Spec-side definitions for the fraud-score claim (C6)

The claim states the risk score as a closed formula.  The two definitions
below transcribe that formula: claim_risk_score_c6 is the formula exactly
as the claim words it (rapid succession counts only validated
transactions), and spec_risk_score is the formula with the one amendment
the code forces (rapid succession counts stored transactions of any
validation status). -/

/-- Day's validated total on the transaction's account, as the claim
words it. -/
def spec_daily_validated_total (db : DBState) (t : Txn) : ℤ :=
  ((db.transactions.filter (fun r =>
      r.account_id == t.account_id &&
      r.validation_status == ValidationStatus.validated &&
      r.transaction_date.dateOf == t.transaction_date.dateOf)).map (fun r => r.amount)).sum

/-- Number of stored transactions of any validation status on the account
within the preceding 5 minutes (the amended reading). -/
def spec_rapid_count (db : DBState) (t : Txn) : ℕ :=
  (db.transactions.filter (fun r =>
      r.account_id == t.account_id &&
      t.transaction_date.minutes - 5 ≤ r.transaction_date.minutes &&
      r.transaction_date.minutes ≤ t.transaction_date.minutes)).length

/-- Number of validated transactions on the account within the preceding
5 minutes (the claim's original reading). -/
def claim_rapid_count_validated (db : DBState) (t : Txn) : ℕ :=
  (db.transactions.filter (fun r =>
      r.account_id == t.account_id &&
      r.validation_status == ValidationStatus.validated &&
      t.transaction_date.minutes - 5 ≤ r.transaction_date.minutes &&
      r.transaction_date.minutes ≤ t.transaction_date.minutes)).length

/-- Risk score formula of claim C6 with the amended rapid-succession
rule: 30 for amount above the single-transaction cap, 25 when the day's
validated total plus the amount exceeds the daily cap, 20 when more than 3
stored transactions of any status fall in the preceding 5 minutes, 5 for a
round amount of at least 1000, 10 for a weekend or an hour outside 6..22. -/
def spec_risk_score (db : DBState) (t : Txn) : ℤ :=
  (if 1000000 < t.amount then 30 else 0) +
  (if 2500000 < spec_daily_validated_total db t + t.amount then 25 else 0) +
  (if 3 < spec_rapid_count db t then 20 else 0) +
  (if t.amount.emod 10000 = 0 ∧ 100000 ≤ t.amount then 5 else 0) +
  (if 5 ≤ t.transaction_date.weekday ∨ t.transaction_date.hour < 6 ∨ 22 < t.transaction_date.hour
   then 10 else 0)

/-- Risk score formula exactly as claim C6 states it, with rapid
succession counting only validated transactions. -/
def claim_risk_score_c6 (db : DBState) (t : Txn) : ℤ :=
  (if 1000000 < t.amount then 30 else 0) +
  (if 2500000 < spec_daily_validated_total db t + t.amount then 25 else 0) +
  (if 3 < claim_rapid_count_validated db t then 20 else 0) +
  (if t.amount.emod 10000 = 0 ∧ 100000 ≤ t.amount then 5 else 0) +
  (if 5 ≤ t.transaction_date.weekday ∨ t.transaction_date.hour < 6 ∨ 22 < t.transaction_date.hour
   then 10 else 0)

/-! ## Spec-side definitions for the revenue-impact claim (C8) -/

/-- Revenue-impact sub-score exactly as claim C8 states it: for positive
revenue potential the clamped logarithmic value times the revenue-type
multiplier with no further cap, and exactly 20 otherwise regardless of the
revenue type. -/
def claim_revenue_impact_c8 (log10 : ℚ → ℚ)
    (revenue_potential : ℚ) (revenue_type : String) : ℚ :=
  if 0 < revenue_potential
  then (min 90 (max 30 (30 + 20 * log10 (max 1 (revenue_potential / 100)))))
       * revenue_type_multiplier revenue_type
  else 20

/-- Revenue-impact sub-score as claim C8 amended: the multiplier also
applies to the 20 of the no-revenue branch, and the product is capped at
100 in both branches. -/
def spec_revenue_impact (log10 : ℚ → ℚ)
    (revenue_potential : ℚ) (revenue_type : String) : ℚ :=
  if 0 < revenue_potential
  then min 100 ((min 90 (max 30 (30 + 20 * log10 (max 1 (revenue_potential / 100)))))
                * revenue_type_multiplier revenue_type)
  else min 100 (20 * revenue_type_multiplier revenue_type)

/-- A rational stand-in for math.log10 agreeing with the decimal
logarithm at the only argument the concrete evaluations below sample it
at: log10 1000 = 3. -/
def log10_table (q : ℚ) : ℚ := if q = 1000 then 3 else 0

/-! ## Concrete states for the evaluations

All concrete timestamps use minute 2160 of the epoch: day 1 (a Tuesday),
12:00, so no unusual-time flag fires. -/

/-- Ledger with one operational-expense account holding 10.00 (the
spec's scenario 3 state). -/
def db_c1 : DBState :=
  { accounts := [{ account_id := "acct_op",
                   account_type := AccountType.operational_expense,
                   current_balance := 1000 }],
    transactions := [] }

/-- A debit of 50.00 (5000 cents) against the operational-expense
account. -/
def t_c1 : Txn :=
  { transaction_id := "t1", account_id := "acct_op",
    transaction_type := TransactionType.debit, amount := 5000,
    category := "operational_expense", description := "supplies",
    reference_number := none, transaction_date := { minutes := 2160 },
    validation_status := ValidationStatus.pending }

/-- Ledger with one primary-revenue account holding 0. -/
def db_c2 : DBState :=
  { accounts := [{ account_id := "acct_rev",
                   account_type := AccountType.primary_revenue,
                   current_balance := 0 }],
    transactions := [] }

/-- A credit of 26000.00: above the single-transaction cap (+30), breaches
the daily cap (+25), round amount (+5), so risk score 60 and level high. -/
def t_c2 : Txn :=
  { transaction_id := "t2", account_id := "acct_rev",
    transaction_type := TransactionType.credit, amount := 2600000,
    category := "revenue", description := "large payment",
    reference_number := none, transaction_date := { minutes := 2160 },
    validation_status := ValidationStatus.pending }

/-- Ledger of the spec's transfer round-trip scenario: source (1000.00)
and destination (0) both exist. -/
def db_c3s : DBState :=
  { accounts := [{ account_id := "acct_a",
                   account_type := AccountType.primary_revenue,
                   current_balance := 100000 },
                 { account_id := "acct_b",
                   account_type := AccountType.reserve,
                   current_balance := 0 }],
    transactions := [] }

/-- Ledger with one reserve account holding 100.00, for the posted
sequence. -/
def db_c4 : DBState :=
  { accounts := [{ account_id := "acct_a",
                   account_type := AccountType.reserve,
                   current_balance := 10000 }],
    transactions := [] }

/-- A credit of 5.00 then a debit of 3.00, both on the same account. -/
def ts_c4 : List Txn :=
  [{ transaction_id := "w1", account_id := "acct_a",
     transaction_type := TransactionType.credit, amount := 500,
     category := "revenue", description := "x",
     reference_number := none, transaction_date := { minutes := 2160 },
     validation_status := ValidationStatus.pending },
   { transaction_id := "w2", account_id := "acct_a",
     transaction_type := TransactionType.debit, amount := 300,
     category := "operational_expense", description := "y",
     reference_number := none, transaction_date := { minutes := 2160 },
     validation_status := ValidationStatus.pending }]

/-- Queue entry of the spec's capability-skip example: one task of
composite priority 60 requiring programming and testing. -/
def entry_c5 : QEntry :=
  { neg_priority := -60, timestamp := 0, task_id := "task_1",
    required_capabilities := ["programming", "testing"] }

/-- Queue holding only that task. -/
def queue_c5 : List QEntry := [entry_c5]

/-- Capability tags of the technical worker of the example. -/
def technical_caps : List String := ["programming", "testing"]

/-- Capability tags of the marketing worker of the example. -/
def marketing_caps : List String := ["content", "social_media"]

/-- Ledger whose store already holds four rejected debit attempts on the
account, all dated within the 5 minutes preceding minute 2160, and no
validated transaction. -/
def db_c6 : DBState :=
  { accounts := [{ account_id := "acct_a",
                   account_type := AccountType.reserve,
                   current_balance := 10000 }],
    transactions :=
      [{ transaction_id := "r1", account_id := "acct_a",
         transaction_type := TransactionType.debit, amount := 50000,
         category := "operational_expense", description := "attempt",
         reference_number := none, transaction_date := { minutes := 2157 },
         validation_status := ValidationStatus.rejected },
       { transaction_id := "r2", account_id := "acct_a",
         transaction_type := TransactionType.debit, amount := 50000,
         category := "operational_expense", description := "attempt",
         reference_number := none, transaction_date := { minutes := 2158 },
         validation_status := ValidationStatus.rejected },
       { transaction_id := "r3", account_id := "acct_a",
         transaction_type := TransactionType.debit, amount := 50000,
         category := "operational_expense", description := "attempt",
         reference_number := none, transaction_date := { minutes := 2159 },
         validation_status := ValidationStatus.rejected },
       { transaction_id := "r4", account_id := "acct_a",
         transaction_type := TransactionType.debit, amount := 50000,
         category := "operational_expense", description := "attempt",
         reference_number := none, transaction_date := { minutes := 2160 },
         validation_status := ValidationStatus.rejected }] }

/-- A small credit of 7.00 at a normal time: no fraud rule fires except
the rapid-succession count over the four stored rejected rows. -/
def t_c6 : Txn :=
  { transaction_id := "t6", account_id := "acct_a",
    transaction_type := TransactionType.credit, amount := 700,
    category := "revenue", description := "pay",
    reference_number := none, transaction_date := { minutes := 2160 },
    validation_status := ValidationStatus.pending }

/-! # Lemmas -/

/-! ## Queue order lemmas (claim C5) -/

theorem pref_le_refl (a : QEntry) : pref_le a a :=
  ⟨le_refl _, fun _ => le_refl _⟩

theorem pref_le_trans {a b c : QEntry} (h1 : pref_le a b) (h2 : pref_le b c) :
    pref_le a c := by
  refine ⟨le_trans h1.1 h2.1, fun hac => ?_⟩
  have hab : a.neg_priority = b.neg_priority := le_antisymm h1.1 (hac ▸ h2.1)
  have hbc : b.neg_priority = c.neg_priority := hab ▸ hac
  exact le_trans (h1.2 hab) (h2.2 hbc)

theorem entry_lt_pref_le {a b : QEntry} (h : entry_lt a b) : pref_le a b := by
  rcases h with h | ⟨he, h⟩
  · exact ⟨le_of_lt h, fun he => absurd he (ne_of_lt h)⟩
  · rcases h with h | ⟨ht, _⟩
    · exact ⟨le_of_eq he, fun _ => le_of_lt h⟩
    · exact ⟨le_of_eq he, fun _ => le_of_eq ht⟩

theorem not_entry_lt_pref_le {a b : QEntry} (h : ¬ entry_lt a b) : pref_le b a := by
  unfold entry_lt at h
  push_neg at h
  refine ⟨h.1, fun he => ?_⟩
  have h2 := h.2 he.symm
  exact h2.1

theorem foldl_min_mem (e : QEntry) (es : List QEntry) :
    es.foldl (fun best x => if entry_lt x best then x else best) e ∈ e :: es := by
  induction es generalizing e with
  | nil => simp
  | cons y ys ih =>
    simp only [List.foldl_cons]
    by_cases h : entry_lt y e
    · rw [if_pos h]
      exact List.mem_cons_of_mem e (ih y)
    · rw [if_neg h]
      rcases List.mem_cons.mp (ih e) with h1 | h1
      · rw [h1]
        exact List.mem_cons_self _ _
      · exact List.mem_cons_of_mem _ (List.mem_cons_of_mem _ h1)

theorem foldl_min_le (e : QEntry) (es : List QEntry) :
    ∀ x ∈ e :: es, pref_le (es.foldl (fun best x => if entry_lt x best then x else best) e) x := by
  induction es generalizing e with
  | nil =>
    intro x hx
    rcases List.mem_cons.mp hx with hx | hx
    · exact hx ▸ pref_le_refl _
    · simp at hx
  | cons y ys ih =>
    intro x hx
    simp only [List.foldl_cons]
    by_cases h : entry_lt y e
    · rw [if_pos h]
      rcases List.mem_cons.mp hx with hx | hx
      · exact hx ▸ pref_le_trans (ih y y (List.mem_cons_self _ _)) (entry_lt_pref_le h)
      · exact ih y x hx
    · rw [if_neg h]
      rcases List.mem_cons.mp hx with hx | hx
      · exact hx ▸ ih e e (List.mem_cons_self _ _)
      · rcases List.mem_cons.mp hx with hx2 | hx2
        · exact hx2 ▸ pref_le_trans (ih e e (List.mem_cons_self _ _)) (not_entry_lt_pref_le h)
        · exact ih e x (List.mem_cons_of_mem _ hx2)

theorem pick_min_mem {l : List QEntry} {e : QEntry} (h : pick_min l = some e) : e ∈ l := by
  cases l with
  | nil => simp [pick_min] at h
  | cons a as =>
    simp only [pick_min, Option.some.injEq] at h
    exact h ▸ foldl_min_mem a as

theorem pick_min_pref_le {l : List QEntry} {e : QEntry} (h : pick_min l = some e) :
    ∀ x ∈ l, pref_le e x := by
  cases l with
  | nil => simp [pick_min] at h
  | cons a as =>
    simp only [pick_min, Option.some.injEq] at h
    exact h ▸ foldl_min_le a as

theorem pick_min_eq_none {l : List QEntry} : pick_min l = none ↔ l = [] := by
  cases l <;> simp [pick_min]

/-! ## Ledger lemmas (claims C1 to C4) -/

theorem if_singleton_ne {c : Prop} [Decidable c] {x : VError}
    (h : (if c then [x] else []) = []) : ¬ c := by
  intro hc
  rw [if_pos hc] at h
  exact List.cons_ne_nil x [] h

theorem account_exists_of_valid {db : DBState} {t : Txn}
    (hv : validate_transaction db t = []) :
    check_account_exists db t.account_id = true := by
  unfold validate_transaction at hv
  simp only [List.append_eq_nil] at hv
  have h5 := if_singleton_ne hv.1.2
  cases h : check_account_exists db t.account_id
  · exact absurd h h5
  · rfl

theorem sufficient_of_valid_debit {db : DBState} {t : Txn}
    (hv : validate_transaction db t = [])
    (hd : t.transaction_type = TransactionType.debit) :
    check_sufficient_balance db t.account_id t.amount = true := by
  unfold validate_transaction at hv
  simp only [List.append_eq_nil] at hv
  have h6 := if_singleton_ne hv.2
  cases h : check_sufficient_balance db t.account_id t.amount
  · exact absurd ⟨hd, h⟩ h6
  · rfl

theorem find?_set_balance_self (l : List AccountRow) (id : String) (nb : ℤ) :
    (set_balance l id nb).find? (fun a => a.account_id == id)
      = (l.find? (fun a => a.account_id == id)).map
          (fun a => { a with current_balance := nb }) := by
  induction l with
  | nil => rfl
  | cons a as ih =>
    simp only [set_balance, List.map_cons]
    by_cases h : a.account_id = id
    · rw [if_pos h]
      rw [List.find?_cons_of_pos _ (by simp [h]), List.find?_cons_of_pos _ (by simp [h])]
      rfl
    · rw [if_neg h]
      rw [List.find?_cons_of_neg _ (by simp [h]), List.find?_cons_of_neg _ (by simp [h])]
      exact ih

theorem find?_set_balance_ne (l : List AccountRow) (id B : String) (nb : ℤ)
    (h : B ≠ id) :
    (set_balance l id nb).find? (fun a => a.account_id == B)
      = l.find? (fun a => a.account_id == B) := by
  induction l with
  | nil => rfl
  | cons a as ih =>
    simp only [set_balance, List.map_cons]
    by_cases ha : a.account_id = id
    · have hb : ¬ (a.account_id = B) := fun hab => h (by rw [← hab, ha])
      rw [if_pos ha]
      rw [List.find?_cons_of_neg _ (by simp [hb]), List.find?_cons_of_neg _ (by simp [hb])]
      exact ih
    · rw [if_neg ha]
      by_cases hb : a.account_id = B
      · rw [List.find?_cons_of_pos _ (by simp [hb]), List.find?_cons_of_pos _ (by simp [hb])]
      · rw [List.find?_cons_of_neg _ (by simp [hb]), List.find?_cons_of_neg _ (by simp [hb])]
        exact ih

theorem get_balance_store (db : DBState) (t : Txn) (B : String) :
    get_account_balance (store_transaction db t) B = get_account_balance db B := rfl

theorem get_balance_update_self (db : DBState) (t : Txn)
    (hex : check_account_exists db t.account_id = true) :
    get_account_balance (update_account_balance_txn db t) t.account_id
      = get_account_balance db t.account_id
        + (if t.transaction_type = TransactionType.credit then t.amount else -t.amount) := by
  unfold check_account_exists at hex
  unfold get_account_balance update_account_balance_txn
  simp only
  rw [find?_set_balance_self]
  cases hf : db.accounts.find? (fun a => a.account_id == t.account_id) with
  | none => rw [hf] at hex; simp at hex
  | some a =>
    unfold get_account_balance
    rw [hf]
    simp only [Option.map_some]
    cases htt : t.transaction_type <;> (simp [htt]; try ring)

theorem get_balance_update_ne (db : DBState) (t : Txn) (B : String)
    (hB : B ≠ t.account_id) :
    get_account_balance (update_account_balance_txn db t) B
      = get_account_balance db B := by
  unfold get_account_balance update_account_balance_txn
  simp only
  rw [find?_set_balance_ne _ _ _ _ hB]

theorem process_success_inv (db : DBState) (t : Txn)
    (h : (process_transaction db t).1.success = true) :
    validate_transaction db t = [] ∧
    risk_level_of (perform_fraud_detection db t) ≠ RiskLevel.high ∧
    ∃ nb, execute_transaction db t = some nb := by
  by_cases hv : validate_transaction db t = []
  · by_cases hr : risk_level_of (perform_fraud_detection db t) = RiskLevel.high
    · simp [process_transaction, hv, hr, ProcessResult.success] at h
    · cases hex : execute_transaction db t with
      | some nb => exact ⟨hv, hr, nb, rfl⟩

      | none => simp [process_transaction, hv, hr, hex, ProcessResult.success] at h
  · simp [process_transaction, hv, ProcessResult.success] at h

theorem process_success_shape (db : DBState) (t : Txn)
    (h : (process_transaction db t).1.success = true) :
    validate_transaction db t = [] ∧
    (process_transaction db t).2.2 =
      store_transaction (update_account_balance_txn db t)
        { t with validation_status := ValidationStatus.validated } := by
  obtain ⟨hv, hr, nb, hex⟩ := process_success_inv db t h
  refine ⟨hv, ?_⟩
  simp [process_transaction, hv, hr, hex]

theorem process_success_balance (db : DBState) (t : Txn)
    (h : (process_transaction db t).1.success = true) :
    get_account_balance (process_transaction db t).2.2 t.account_id
      = get_account_balance db t.account_id
        + (if t.transaction_type = TransactionType.credit then t.amount else -t.amount) := by
  obtain ⟨hv, hshape⟩ := process_success_shape db t h
  rw [hshape, get_balance_store]
  exact get_balance_update_self db t (account_exists_of_valid hv)

theorem process_success_other (db : DBState) (t : Txn) (B : String)
    (hB : B ≠ t.account_id)
    (h : (process_transaction db t).1.success = true) :
    get_account_balance (process_transaction db t).2.2 B = get_account_balance db B := by
  obtain ⟨hv, hshape⟩ := process_success_shape db t h
  rw [hshape, get_balance_store]
  exact get_balance_update_ne db t B hB

theorem process_success_transactions (db : DBState) (t : Txn)
    (h : (process_transaction db t).1.success = true) :
    (process_transaction db t).2.2.transactions
      = db.transactions ++ [{ t with validation_status := ValidationStatus.validated }] := by
  obtain ⟨hv, hshape⟩ := process_success_shape db t h
  rw [hshape]
  rfl

theorem process_fail_accounts (db : DBState) (t : Txn)
    (h : (process_transaction db t).1.success = false) :
    (process_transaction db t).2.2.accounts = db.accounts := by
  by_cases hv : validate_transaction db t = []
  · by_cases hr : risk_level_of (perform_fraud_detection db t) = RiskLevel.high
    · simp [process_transaction, hv, hr]
    · cases hex : execute_transaction db t with
      | some nb => simp [process_transaction, hv, hr, hex, ProcessResult.success] at h
      | none => simp [process_transaction, hv, hr, hex, store_transaction]
  · simp [process_transaction, hv]

theorem process_fail_transactions (db : DBState) (t : Txn)
    (h : (process_transaction db t).1.success = false) :
    (process_transaction db t).2.2.transactions = db.transactions ∨
    (process_transaction db t).2.2.transactions
      = db.transactions ++ [{ t with validation_status := ValidationStatus.rejected }] := by
  by_cases hv : validate_transaction db t = []
  · by_cases hr : risk_level_of (perform_fraud_detection db t) = RiskLevel.high
    · left
      simp [process_transaction, hv, hr]
    · cases hex : execute_transaction db t with
      | some nb => simp [process_transaction, hv, hr, hex, ProcessResult.success] at h
      | none =>
        right
        simp [process_transaction, hv, hr, hex, store_transaction]
  · left
    simp [process_transaction, hv]

theorem credit_total_cons (t : Txn) (rest : List Txn) :
    credit_total (t :: rest)
      = (if t.transaction_type = TransactionType.credit then t.amount else 0)
        + credit_total rest := by
  unfold credit_total
  cases htt : t.transaction_type <;> simp [List.filter_cons, htt]

theorem debit_total_cons (t : Txn) (rest : List Txn) :
    debit_total (t :: rest)
      = (if t.transaction_type = TransactionType.debit then t.amount else 0)
        + debit_total rest := by
  unfold debit_total
  cases htt : t.transaction_type <;> simp [List.filter_cons, htt]

/-! # Claim theorems -/

/-- C5: dequeue_optimal_task returns the queued task of highest composite
priority, ties broken by earliest insertion timestamp, among the tasks
whose required capabilities the worker's tags cover at the 70 percent
threshold (a task with no required capabilities is compatible with every
worker, which is_task_compatible encodes); it returns none exactly when no
queued task is compatible, in which case the queue is unchanged, and every
task other than the returned one remains in the queue afterwards. -/
theorem dequeue_optimal_task_correct (queue : List QEntry) (caps : List String) :
    ((dequeue_optimal_task queue caps).1 = none →
       (∀ e ∈ queue, is_task_compatible e.required_capabilities caps = false) ∧
       (dequeue_optimal_task queue caps).2 = queue) ∧
    (∀ e, (dequeue_optimal_task queue caps).1 = some e →
       e ∈ queue ∧
       is_task_compatible e.required_capabilities caps = true ∧
       (∀ x ∈ queue, is_task_compatible x.required_capabilities caps = true →
          x.composite ≤ e.composite ∧
          (x.composite = e.composite → e.timestamp ≤ x.timestamp)) ∧
       (∀ x ∈ queue, x ≠ e → x ∈ (dequeue_optimal_task queue caps).2)) := by
  have hd : dequeue_optimal_task queue caps =
      match pick_min (queue.filter (fun e => is_task_compatible e.required_capabilities caps)) with
      | none => (none, queue.filter (fun e => !is_task_compatible e.required_capabilities caps))
      | some e => (some e,
          queue.filter (fun e => !is_task_compatible e.required_capabilities caps)
            ++ (queue.filter (fun e => is_task_compatible e.required_capabilities caps)).erase e) :=
    rfl
  cases hpm : pick_min (queue.filter (fun e => is_task_compatible e.required_capabilities caps)) with
  | none =>
    rw [hpm] at hd
    have hnil : queue.filter (fun e => is_task_compatible e.required_capabilities caps) = [] :=
      pick_min_eq_none.mp hpm
    have hall : ∀ e ∈ queue, is_task_compatible e.required_capabilities caps = false := by
      intro e he
      by_contra hcon
      have het : is_task_compatible e.required_capabilities caps = true := by
        cases h : is_task_compatible e.required_capabilities caps
        · exact absurd h hcon
        · rfl
      have : e ∈ queue.filter (fun e => is_task_compatible e.required_capabilities caps) :=
        List.mem_filter.mpr ⟨he, het⟩
      rw [hnil] at this
      simp at this
    constructor
    · intro _
      refine ⟨hall, ?_⟩
      rw [hd]
      exact List.filter_eq_self.mpr (fun a ha => by simp [hall a ha])
    · intro e he
      rw [hd] at he
      simp at he
  | some e0 =>
    rw [hpm] at hd
    have he0c : e0 ∈ queue.filter (fun e => is_task_compatible e.required_capabilities caps) :=
      pick_min_mem hpm
    constructor
    · intro hn
      rw [hd] at hn
      simp at hn
    · intro e he
      rw [hd] at he
      simp only [Option.some.injEq] at he
      subst he
      refine ⟨List.mem_of_mem_filter he0c, (List.mem_filter.mp he0c).2, ?_, ?_⟩
      · intro x hx hpx
        have hxc : x ∈ queue.filter (fun e => is_task_compatible e.required_capabilities caps) :=
          List.mem_filter.mpr ⟨hx, hpx⟩
        have hle := pick_min_pref_le hpm x hxc
        constructor
        · exact neg_le_neg hle.1
        · intro hcomp
          have : e0.neg_priority = x.neg_priority := by
            unfold QEntry.composite at hcomp
            exact (neg_injective hcomp).symm
          exact hle.2 this
      · intro x hx hne
        rw [hd]
        by_cases hp : is_task_compatible x.required_capabilities caps = true
        · have hxc : x ∈ queue.filter (fun e => is_task_compatible e.required_capabilities caps) :=
            List.mem_filter.mpr ⟨hx, hp⟩
          exact List.mem_append_right _ ((List.mem_erase_of_ne hne).mpr hxc)
        · have hpf : is_task_compatible x.required_capabilities caps = false := by
            cases h : is_task_compatible x.required_capabilities caps
            · rfl
            · exact absurd h hp
          exact List.mem_append_left _ (List.mem_filter.mpr ⟨hx, by simp [hpf]⟩)

/-- C5 witness: the spec's capability-skip example, evaluated through the
theorem.  The technical worker (programming, testing) receives the queued
task; the marketing worker (content, social media) receives nothing and
the task stays queued. -/
theorem dequeue_optimal_task_correct_witness :
    (dequeue_optimal_task queue_c5 technical_caps).1 = some entry_c5 ∧
    entry_c5 ∈ queue_c5 ∧
    is_task_compatible entry_c5.required_capabilities technical_caps = true ∧
    (dequeue_optimal_task queue_c5 marketing_caps).1 = none ∧
    (∀ e ∈ queue_c5, is_task_compatible e.required_capabilities marketing_caps = false) ∧
    (dequeue_optimal_task queue_c5 marketing_caps).2 = queue_c5 := by
  refine ⟨by decide, ?_, ?_, by decide, ?_, ?_⟩
  · exact ((dequeue_optimal_task_correct queue_c5 technical_caps).2 entry_c5 (by decide)).1
  · exact ((dequeue_optimal_task_correct queue_c5 technical_caps).2 entry_c5 (by decide)).2.1
  · exact ((dequeue_optimal_task_correct queue_c5 marketing_caps).1 (by decide)).1
  · exact ((dequeue_optimal_task_correct queue_c5 marketing_caps).1 (by decide)).2

/-- C1: the spec exempts operational-expense debits from the
balance-feasibility check, but _validate_transaction requires balance at
least amount for every debit regardless of account type, so the spec's
scenario (debit 50.00 on an operational-expense account with balance
10.00) is rejected with an insufficient-balance error and the balance
stays 10.00 instead of becoming -40.00.  The code's own
_allow_negative_balance does permit this account type to go negative, but
that logic sits behind the validation gate and is unreachable through
process_transaction, so the code contradicts its own provision: a code
bug relative to the documented intent.  The theorem evaluates the
processor at the failing input (amounts in cents). -/
theorem operational_expense_debit_rejected :
    allow_negative_balance db_c1 t_c1.account_id = true ∧
    process_transaction db_c1 t_c1 =
      (ProcessResult.validationFailed [VError.insufficient_balance], t_c1, db_c1) ∧
    get_account_balance (process_transaction db_c1 t_c1).2.2 "acct_op" = 1000 := by
  decide

/-- C2 (amended): a transaction that passes static validation and whose
fraud screen yields risk level high makes process_transaction return a
failure result with the transaction's validation status set to
requires-review and the persistent state untouched: no balance changes,
and the transaction is NOT persisted to the transactions store (the
source stores only validated and rejected transactions). -/
theorem fraud_review_not_persisted (db : DBState) (t : Txn)
    (hv : validate_transaction db t = [])
    (hr : risk_level_of (perform_fraud_detection db t) = RiskLevel.high) :
    process_transaction db t =
      (ProcessResult.fraudReview (perform_fraud_detection db t),
       { t with validation_status := ValidationStatus.requires_review }, db) ∧
    (process_transaction db t).1.success = false := by
  have h : process_transaction db t =
      (ProcessResult.fraudReview (perform_fraud_detection db t),
       { t with validation_status := ValidationStatus.requires_review }, db) := by
    simp [process_transaction, hv, hr]
  exact ⟨h, by simp [h, ProcessResult.success]⟩

/-- C2 counterexample: a credit of 26000.00 on the primary-revenue
account scores 60 (large amount, daily-cap breach, round amount), risk
level high; the result is a failure, the status becomes requires-review,
but contrary to the claim the transaction is not persisted: the
transactions store stays empty. -/
theorem fraud_review_not_persisted_cex :
    risk_level_of (perform_fraud_detection db_c2 t_c2) = RiskLevel.high ∧
    (process_transaction db_c2 t_c2).1.success = false ∧
    (process_transaction db_c2 t_c2).2.1.validation_status = ValidationStatus.requires_review ∧
    (process_transaction db_c2 t_c2).2.2 = db_c2 ∧
    (process_transaction db_c2 t_c2).2.2.transactions = [] := by
  decide

/-- C2 witness: the amended theorem applied to the concrete high-risk
credit. -/
theorem fraud_review_not_persisted_witness :
    validate_transaction db_c2 t_c2 = [] ∧
    risk_level_of (perform_fraud_detection db_c2 t_c2) = RiskLevel.high ∧
    process_transaction db_c2 t_c2 =
      (ProcessResult.fraudReview (perform_fraud_detection db_c2 t_c2),
       { t_c2 with validation_status := ValidationStatus.requires_review }, db_c2) :=
  ⟨by decide, by decide, (fraud_review_not_persisted db_c2 t_c2 (by decide) (by decide)).1⟩

/-- C4: over any sequence of transactions on one account that all post
successfully when processed in order, the final balance equals the
initial balance plus the sum of the credit amounts minus the sum of the
debit amounts. -/
theorem posted_sequence_balance (db : DBState) (ts : List Txn) (A : String)
    (hA : ∀ t ∈ ts, t.account_id = A)
    (hp : all_posted_b db ts = true) :
    get_account_balance (process_all db ts) A
      = get_account_balance db A + credit_total ts - debit_total ts := by
  induction ts generalizing db with
  | nil => simp [process_all, credit_total, debit_total]
  | cons t rest ih =>
    have hAt : t.account_id = A := hA t (List.mem_cons_self _ _)
    have hArest : ∀ x ∈ rest, x.account_id = A := fun x hx => hA x (List.mem_cons_of_mem _ hx)
    unfold all_posted_b at hp
    rw [Bool.and_eq_true] at hp
    have hstep := process_success_balance db t hp.1
    rw [hAt] at hstep
    have hfold : process_all db (t :: rest) = process_all (process_transaction db t).2.2 rest := by
      simp [process_all]
    rw [hfold, ih _ hArest hp.2, hstep, credit_total_cons, debit_total_cons]
    cases htt : t.transaction_type <;> (simp [htt]; try ring)

/-- C4 witness: a credit of 5.00 then a debit of 3.00 on a reserve
account holding 100.00 both post, and the theorem yields the final
balance 102.00 (in cents: 10000 + 500 - 300). -/
theorem posted_sequence_balance_witness :
    (∀ t ∈ ts_c4, t.account_id = "acct_a") ∧
    all_posted_b db_c4 ts_c4 = true ∧
    get_account_balance (process_all db_c4 ts_c4) "acct_a"
      = get_account_balance db_c4 "acct_a" + credit_total ts_c4 - debit_total ts_c4 :=
  ⟨by decide, by decide, posted_sequence_balance db_c4 ts_c4 "acct_a" (by decide) (by decide)⟩

/-- Filtering with pointwise-equal predicates gives the same list. -/
theorem filter_ext_pred {α : Type} (p q : α → Bool) (h : ∀ a, p a = q a) (l : List α) :
    l.filter p = l.filter q := by
  induction l with
  | nil => rfl
  | cons a as ih => simp [List.filter_cons, h a, ih]

/-- The daily-total query of the source equals the day's validated total
as the claim words it (the filter conjuncts commute). -/
theorem daily_total_eq_spec (db : DBState) (t : Txn) :
    get_daily_transaction_total db t.account_id t.transaction_date.dateOf
      = spec_daily_validated_total db t := by
  unfold get_daily_transaction_total spec_daily_validated_total
  congr 1
  congr 1
  apply filter_ext_pred
  intro r
  cases h1 : (r.account_id == t.account_id) <;>
    cases h2 : (r.transaction_date.dateOf == t.transaction_date.dateOf) <;>
      cases h3 : (r.validation_status == ValidationStatus.validated) <;>
        simp [h1, h2, h3]

/-- The risk score of the source equals the amended claim formula. -/
theorem fraud_score_eq_spec (db : DBState) (t : Txn) :
    perform_fraud_detection db t = spec_risk_score db t := by
  unfold perform_fraud_detection spec_risk_score
  rw [daily_total_eq_spec db t]
  have h3 : (detect_rapid_succession db t = true) ↔ (3 < spec_rapid_count db t) := by
    unfold detect_rapid_succession spec_rapid_count
    simp
  have h4 : (is_round_amount t.amount = true) ↔
      (t.amount.emod 10000 = 0 ∧ 100000 ≤ t.amount) := by
    unfold is_round_amount
    simp
  have h5 : (is_unusual_time t.transaction_date = true) ↔
      (5 ≤ t.transaction_date.weekday ∨ t.transaction_date.hour < 6 ∨
        22 < t.transaction_date.hour) := by
    unfold is_unusual_time
    simp [or_assoc]
  rw [if_congr h3 rfl rfl, if_congr h4 rfl rfl, if_congr h5 rfl rfl]

/-- C6 (amended): the fraud screen's risk score is exactly the sum of 30
for an amount above the single-transaction cap, 25 when the day's
validated total on the account plus the amount exceeds the daily cap, 20
when more than 3 stored transactions of any validation status (not only
validated ones, as the claim had it) fall on the account within the
preceding 5 minutes, 5 for a round amount of at least 1000, and 10 for a
weekend or an hour outside 6..22; the risk level is high iff the score is
at least 50, medium iff it is in 25..49, and low otherwise. -/
theorem fraud_score_correct (db : DBState) (t : Txn) :
    perform_fraud_detection db t = spec_risk_score db t ∧
    (risk_level_of (perform_fraud_detection db t) = RiskLevel.high ↔
      50 ≤ perform_fraud_detection db t) ∧
    (risk_level_of (perform_fraud_detection db t) = RiskLevel.medium ↔
      (25 ≤ perform_fraud_detection db t ∧ perform_fraud_detection db t < 50)) ∧
    (risk_level_of (perform_fraud_detection db t) = RiskLevel.low ↔
      perform_fraud_detection db t < 25) := by
  refine ⟨fraud_score_eq_spec db t, ?_, ?_, ?_⟩ <;>
    (unfold risk_level_of; split_ifs with h1 h2 <;> simp_all <;> omega)

/-- C6 counterexample: with four rejected debit attempts stored on the
account in the preceding 5 minutes and nothing validated, a small normal
credit scores 20 through the code's rapid-succession rule (which counts
stored transactions of every status), while the claim's formula (counting
only validated ones) yields 0. -/
theorem fraud_score_correct_cex :
    perform_fraud_detection db_c6 t_c6 = 20 ∧
    claim_risk_score_c6 db_c6 t_c6 = 0 ∧
    perform_fraud_detection db_c6 t_c6 ≠ claim_risk_score_c6 db_c6 t_c6 := by
  decide

/-- Base urgency never decreases as the deadline draws nearer. -/
theorem urgency_base_anti {t1 t2 : ℚ} (h : t1 ≤ t2) :
    urgency_base t2 ≤ urgency_base t1 := by
  unfold urgency_base
  split_ifs <;> linarith

theorem urgency_base_nonneg (t : ℚ) : 0 ≤ urgency_base t := by
  unfold urgency_base
  split_ifs <;> norm_num

theorem urgency_mult_anti {t1 t2 : ℚ} (est : ℚ) (h : t1 ≤ t2) :
    urgency_mult t2 est ≤ urgency_mult t1 est := by
  unfold urgency_mult
  split_ifs <;> linarith

theorem urgency_mult_nonneg (t est : ℚ) : 0 ≤ urgency_mult t est := by
  unfold urgency_mult
  split_ifs <;> norm_num

theorem urgency_aging_nonneg {tsc : ℚ} (h : 0 ≤ tsc) : 0 ≤ urgency_aging tsc := by
  unfold urgency_aging
  have hp : (0:ℚ) ≤ tsc / 24 * (1/10) := by positivity
  exact le_min (by norm_num) (by linarith)

/-- C7: for a fixed time since creation (nonnegative, as it always is
when the engine scores a task after its creation) and a fixed estimated
effort, the urgency score of a task with a deadline is antitone in the
hours to the deadline: whenever the hours to deadline at d1 are at most
those at d2, the urgency score at d1 is at least the score at d2. -/
theorem urgency_score_monotone (tsc est t1 t2 : ℚ) (hc : 0 ≤ tsc) (h : t1 ≤ t2) :
    calculate_urgency_score t2 tsc est ≤ calculate_urgency_score t1 tsc est := by
  unfold calculate_urgency_score
  apply min_le_min (le_refl _)
  have hb := urgency_base_anti h
  have hm := urgency_mult_anti est h
  have ha := urgency_aging_nonneg hc
  have hb1 := urgency_base_nonneg t1
  have hm2 := urgency_mult_nonneg t2 est
  calc urgency_base t2 * urgency_aging tsc * urgency_mult t2 est
      ≤ urgency_base t1 * urgency_aging tsc * urgency_mult t2 est := by
        exact mul_le_mul_of_nonneg_right (mul_le_mul_of_nonneg_right hb ha) hm2
    _ ≤ urgency_base t1 * urgency_aging tsc * urgency_mult t1 est := by
        exact mul_le_mul_of_nonneg_left hm (mul_nonneg hb1 ha)

/-- C7 witness: with no waiting time and a 2 hour estimate, the score one
hour before the deadline dominates the score one hundred hours before. -/
theorem urgency_score_monotone_witness :
    (0:ℚ) ≤ 0 ∧ (1:ℚ) ≤ 100 ∧
    calculate_urgency_score 100 0 2 ≤ calculate_urgency_score 1 0 2 :=
  ⟨le_refl 0, by norm_num, urgency_score_monotone 0 2 1 100 (le_refl 0) (by norm_num)⟩

/-- C8 (amended): the revenue-impact sub-score equals, for positive
revenue potential, the value 30 + 20 log10(max(1, potential/100)) clamped
to the range 30..90, multiplied by the revenue-type multiplier (direct
2.0, pipeline 1.5, retention 1.3, savings 1.0, default 1.0) and capped at
100; and for zero or absent revenue potential it equals 20 times the same
revenue-type multiplier capped at 100 (not a bare 20, as the claim had
it).  Stated for every log10 function, so in particular for the decimal
logarithm the source uses. -/
theorem revenue_impact_score_correct (log10 : ℚ → ℚ) (rp : ℚ) (rt : String) :
    calculate_revenue_impact_score log10 rp rt = spec_revenue_impact log10 rp rt := by
  unfold calculate_revenue_impact_score spec_revenue_impact
  split_ifs <;> rfl

/-- C8 counterexample: with zero revenue potential and revenue type
direct, the code returns 20 times 2.0 = 40, not the claimed 20; and with
potential 100000 and type direct the clamped value 90 times 2.0 is capped
at 100, not the claimed 180.  The log10 stand-in is sampled only at 1000,
where its value 3 is the true decimal logarithm. -/
theorem revenue_impact_score_cex :
    calculate_revenue_impact_score log10_table 0 "direct_revenue" = 40 ∧
    claim_revenue_impact_c8 log10_table 0 "direct_revenue" = 20 ∧
    calculate_revenue_impact_score log10_table 100000 "direct_revenue" = 100 ∧
    claim_revenue_impact_c8 log10_table 100000 "direct_revenue" = 180 := by
  refine ⟨?_, ?_, ?_, ?_⟩ <;>
    norm_num [calculate_revenue_impact_score, claim_revenue_impact_c8,
      revenue_type_multiplier, log10_table]

theorem cache_lookup_set_self (c : List (String × ℤ)) (id : String) (nb : ℤ)
    (h : (cache_lookup c id).isSome = true) :
    cache_lookup (cache_set_balance c id nb) id = some nb := by
  induction c with
  | nil => simp [cache_lookup] at h
  | cons p rest ih =>
    obtain ⟨k, v⟩ := p
    by_cases hk : k = id
    · simp [cache_set_balance, cache_lookup, hk]
    · simp only [cache_lookup, if_neg hk] at h
      simp only [cache_set_balance, if_neg hk]
      simp only [cache_lookup, if_neg hk]
      exact ih h

theorem cache_lookup_set_ne (c : List (String × ℤ)) (id j : String) (nb : ℤ)
    (h : j ≠ id) :
    cache_lookup (cache_set_balance c id nb) j = cache_lookup c j := by
  induction c with
  | nil => rfl
  | cons p rest ih =>
    obtain ⟨k, v⟩ := p
    by_cases hk : k = id
    · have hkj : ¬ (k = j) := fun hkj => h (by rw [← hkj, hk])
      rw [cache_set_balance, if_pos hk, cache_lookup, if_neg hkj, cache_lookup, if_neg hkj]
    · rw [cache_set_balance, if_neg hk]
      by_cases hkj : k = j
      · rw [cache_lookup, if_pos hkj, cache_lookup, if_pos hkj]
      · rw [cache_lookup, if_neg hkj, cache_lookup, if_neg hkj]
        exact ih

/-- C9: the Account Registry's balance update is write-through and
atomic with respect to the cache: when the store write succeeds the call
reports success and the cached balance of the account (when the account
is cached) becomes the new balance while every other cached entry is
untouched; when the store write fails the call reports failure and the
cache is entirely unchanged. -/
theorem update_account_balance_cached_correct (store_ok : Bool)
    (cache : List (String × ℤ)) (account_id : String) (new_balance : ℤ) :
    (store_ok = true →
       (update_account_balance_cached store_ok cache account_id new_balance).1 = true ∧
       ((cache_lookup cache account_id).isSome = true →
         cache_lookup (update_account_balance_cached store_ok cache account_id new_balance).2
             account_id
           = some new_balance) ∧
       (∀ j, j ≠ account_id →
         cache_lookup (update_account_balance_cached store_ok cache account_id new_balance).2 j
           = cache_lookup cache j)) ∧
    (store_ok = false →
       (update_account_balance_cached store_ok cache account_id new_balance).1 = false ∧
       (update_account_balance_cached store_ok cache account_id new_balance).2 = cache) := by
  constructor
  · intro hok
    subst hok
    refine ⟨rfl, ?_, ?_⟩
    · intro hsome
      have hu : update_account_balance_cached true cache account_id new_balance
          = (true, cache_set_balance cache account_id new_balance) := by
        simp [update_account_balance_cached, hsome]
      rw [hu]
      exact cache_lookup_set_self cache account_id new_balance hsome
    · intro j hj
      by_cases hsome : (cache_lookup cache account_id).isSome = true
      · have hu : update_account_balance_cached true cache account_id new_balance
            = (true, cache_set_balance cache account_id new_balance) := by
          simp [update_account_balance_cached, hsome]
        rw [hu]
        exact cache_lookup_set_ne cache account_id j new_balance hj
      · have hu : update_account_balance_cached true cache account_id new_balance
            = (true, cache) := by
          simp [update_account_balance_cached, hsome]
        rw [hu]
  · intro hok
    subst hok
    exact ⟨rfl, rfl⟩

/-- C9 witness: the theorem applied to a one-entry cache, for a
successful and for a failed store write. -/
theorem update_account_balance_cached_correct_witness :
    (update_account_balance_cached true [("acct", 500)] "acct" 700).1 = true ∧
    cache_lookup (update_account_balance_cached true [("acct", 500)] "acct" 700).2 "acct"
      = some 700 ∧
    (update_account_balance_cached false [("acct", 500)] "acct" 700).1 = false ∧
    (update_account_balance_cached false [("acct", 500)] "acct" 700).2 = [("acct", 500)] := by
  refine ⟨?_, ?_, ?_, ?_⟩
  · exact ((update_account_balance_cached_correct true [("acct", 500)] "acct" 700).1 rfl).1
  · exact ((update_account_balance_cached_correct true [("acct", 500)] "acct" 700).1 rfl).2.1
      (by decide)
  · exact ((update_account_balance_cached_correct false [("acct", 500)] "acct" 700).2 rfl).1
  · exact ((update_account_balance_cached_correct false [("acct", 500)] "acct" 700).2 rfl).2

/-- C10: the comprehensive priority computation is total over its five
fallible sub-score computations: whenever any of them raises (an error
value in the embedding), the engine returns the default medium
PriorityScore whose composite and five sub-scores all equal 50 instead of
propagating the error, so enqueuing never fails on a priority-computation
error. -/
theorem priority_default_on_error
    (urgency business efficiency revenue dependency : Except String ℚ)
    (h : urgency.toOption = none ∨ business.toOption = none ∨ efficiency.toOption = none ∨
         revenue.toOption = none ∨ dependency.toOption = none) :
    calculate_comprehensive_priority urgency business efficiency revenue dependency
      = default_priority_score ∧
    (calculate_comprehensive_priority urgency business efficiency revenue dependency).composite_score
      = 50 := by
  cases urgency <;> cases business <;> cases efficiency <;> cases revenue <;> cases dependency <;>
    simp_all [calculate_comprehensive_priority, Except.toOption, default_priority_score]

/-- C10 witness: a raising urgency computation with the other four
sub-scores fine still yields the all-fifty default score. -/
theorem priority_default_on_error_witness :
    calculate_comprehensive_priority (Except.error "boom") (Except.ok 60) (Except.ok 55)
        (Except.ok 40) (Except.ok 50) = default_priority_score :=
  (priority_default_on_error (Except.error "boom") (Except.ok 60) (Except.ok 55)
    (Except.ok 40) (Except.ok 50) (Or.inl rfl)).1

/-- C3: the claim (and the spec's transfer round-trip scenario) describes
successful transfers, but the code can never produce one: the debit
leg's FinancialTransaction constructor call omits the required
no-default fields reference_number and processed_date, so it raises
TypeError into the function's blanket except and every transfer returns
a failure with zero postings and no balance change.  The first conjunct
proves this for every starting state and argument list; the remaining
conjuncts evaluate the spec's round-trip input (transfer 300.00 from a
revenue account holding 1000.00 to a reserve account holding 0, in
cents): the result is failure with both balances unchanged and the
transactions store still empty, instead of the expected 700.00 and
300.00 with two validated rows. -/
theorem transfer_typeerror_bug :
    (∀ (db : DBState) (from_id to_id : String) (amount : ℤ)
       (desc debit_id credit_id : String) (d1 d2 : DTime),
       transfer_between_accounts db from_id to_id amount desc debit_id credit_id d1 d2
         = (false, db)) ∧
    transfer_between_accounts db_c3s "acct_a" "acct_b" 30000 "capital" "d1" "c1"
        { minutes := 2160 } { minutes := 2160 } = (false, db_c3s) ∧
    get_account_balance db_c3s "acct_a" = 100000 ∧
    get_account_balance db_c3s "acct_b" = 0 ∧
    db_c3s.transactions = [] :=
  ⟨fun _ _ _ _ _ _ _ _ _ => rfl, by decide, by decide, by decide, by decide⟩
